import Mathlib

set_option maxRecDepth 40000

/-!
Verification development for the image-generation worker
(`src/worker.js`, two handler variants in one file).

The JavaScript code is shallowly embedded: JavaScript numbers are modelled
as exact rationals extended with NaN and signed infinities (`JSNum`), and
JSON values reaching the handler as `JV`.  Model idealizations, each noted
at the definition it concerns: rationals do not overflow to infinity, there
is no negative zero, `Number(string)` covers decimal literals and
`Infinity` (not hexadecimal/octal/binary forms), whitespace is ASCII
whitespace, and string length counts code points.  None of the properties
checked here depend on those corners.
-/

namespace Worker

/-! ### Character and string utilities -/

/-- Whitespace test used by the embedding of `String.prototype.trim` and of
the trimming done by `Number(string)`.  ASCII whitespace only; JavaScript
also trims some further Unicode space characters, which never occur in the
inputs considered here. -/
def isSpaceChar (c : Char) : Bool :=
  c = ' ' ∨ c = '\t' ∨ c = '\n' ∨ c = '\r'

/-- Embedding of `String.prototype.trim` on the character list of a string. -/
def trimChars (l : List Char) : List Char :=
  ((l.dropWhile isSpaceChar).reverse.dropWhile isSpaceChar).reverse

/-- Whether `p` is a leading segment of `l` (used for the bearer-scheme test). -/
def leadsWith : List Char → List Char → Bool
  | _, [] => true
  | [], _ :: _ => false
  | c :: l, p :: ps => c = p && leadsWith l ps

/-- Embedding of `String.prototype.includes` for a multi-character pattern. -/
def hasSub : List Char → List Char → Bool
  | _, [] => true
  | [], _ :: _ => false
  | c :: l, p :: ps => leadsWith (c :: l) (p :: ps) || hasSub l (p :: ps)

/-- Embedding of `String.prototype.toLowerCase` via `Char.toLower`. -/
def lowerStr (s : String) : String :=
  String.mk (s.data.map Char.toLower)

/-- Embedding of `s.split(/[:/]/)`: split at every `:` or `/`, keeping empty
pieces, exactly as the JavaScript single-character-class split does. -/
def splitDelims : List Char → List (List Char)
  | [] => [[]]
  | c :: cs =>
    if c = ':' ∨ c = '/' then [] :: splitDelims cs
    else
      match splitDelims cs with
      | [] => [[c]]
      | p :: ps => (c :: p) :: ps

/-- Delimiter test from `parseAspectRatio`:
`s.includes(":") || s.includes("/")`. -/
def hasDelim (l : List Char) : Bool :=
  l.contains ':' || l.contains '/'

/-! ### JavaScript numbers -/

/-- A JavaScript number: NaN, a signed infinity, or a finite value modelled
as an exact rational (model idealization: no overflow, no negative zero). -/
inductive JSNum where
  | nan : JSNum
  | inf : Bool → JSNum
  | fin : ℚ → JSNum
deriving DecidableEq

/-- Numeric value of a digit list, most significant first. -/
def digitsVal (ds : List Nat) : Nat :=
  ds.foldl (fun a d => 10 * a + d) 0

/-- Split a leading run of decimal digits off a character list. -/
def takeDigits : List Char → List Nat × List Char
  | [] => ([], [])
  | c :: cs =>
    if c.isDigit then
      let p := takeDigits cs
      ((c.toNat - 48) :: p.1, p.2)
    else ([], c :: cs)

/-- Exponent tail of a decimal literal: after `e`/`E`, an optional sign and a
nonempty digit run, which must end the string. -/
def expTail (m : ℚ) (cs : List Char) : Option ℚ :=
  let sp : Bool × List Char :=
    match cs with
    | '+' :: t => (false, t)
    | '-' :: t => (true, t)
    | t => (false, t)
  let dp := takeDigits sp.2
  if dp.1 = [] ∨ dp.2 ≠ [] then none
  else some (if sp.1 then m / 10 ^ digitsVal dp.1 else m * 10 ^ digitsVal dp.1)

/-- Dispatch on an `e`/`E` exponent marker. -/
def applyExp (m : ℚ) : List Char → Option ℚ
  | 'e' :: t => expTail m t
  | 'E' :: t => expTail m t
  | _ => none

/-- Unsigned decimal literal: digits, an optional point and fraction digits,
an optional exponent.  Mirrors the ECMAScript `StrUnsignedDecimalLiteral`
grammar (hexadecimal/octal/binary literal strings are outside the model). -/
def parseDec (cs : List Char) : Option ℚ :=
  let ip := takeDigits cs
  match ip.2 with
  | [] => if ip.1 = [] then none else some (digitsVal ip.1 : ℚ)
  | '.' :: r2 =>
    let fp := takeDigits r2
    if ip.1 = [] ∧ fp.1 = [] then none
    else
      let m : ℚ := (digitsVal ip.1 : ℚ) + (digitsVal fp.1 : ℚ) / 10 ^ fp.1.length
      match fp.2 with
      | [] => some m
      | r3 => applyExp m r3
  | r1 => if ip.1 = [] then none else applyExp (digitsVal ip.1 : ℚ) r1

/-- Signed numeric literal body, after trimming: optional sign, then
`Infinity` or a decimal literal; anything else is NaN. -/
def jsNumBody (cs : List Char) : JSNum :=
  let sp : Bool × List Char :=
    match cs with
    | '+' :: t => (false, t)
    | '-' :: t => (true, t)
    | t => (false, t)
  if sp.2 = ("Infinity").data then .inf (!sp.1)
  else
    match parseDec sp.2 with
    | some q => .fin (if sp.1 then -q else q)
    | none => .nan

/-- Embedding of `Number(string)` on a character list: trim, empty means `0`,
otherwise parse a signed literal. -/
def jsNumChars (cs : List Char) : JSNum :=
  let t := trimChars cs
  if t = [] then .fin 0 else jsNumBody t

/-- Embedding of `Number(string)`. -/
def jsNumber (s : String) : JSNum :=
  jsNumChars s.data

/-- Embedding of `Math.round`: round half toward positive infinity. -/
def jround (q : ℚ) : ℤ := ⌊q + 1 / 2⌋

/-- Round a JavaScript number, propagating NaN and infinities. -/
def jsRound : JSNum → JSNum
  | .nan => .nan
  | .inf p => .inf p
  | .fin q => .fin (jround q : ℤ)

/-- Division of JavaScript numbers (model has no negative zero, so the sign
of a zero divisor is taken as positive). -/
def jsDiv : JSNum → JSNum → JSNum
  | .nan, _ => .nan
  | _, .nan => .nan
  | .inf _, .inf _ => .nan
  | .inf p, .fin b => if b < 0 then .inf (!p) else .inf p
  | .fin _, .inf _ => .fin 0
  | .fin a, .fin b =>
    if b = 0 then (if a = 0 then .nan else .inf (decide ((0:ℚ) ≤ a)))
    else .fin (a / b)

/-- Multiplication of JavaScript numbers. -/
def jsMul : JSNum → JSNum → JSNum
  | .nan, _ => .nan
  | _, .nan => .nan
  | .inf p, .inf q => .inf (p == q)
  | .inf p, .fin b => if b = 0 then .nan else .inf (p == decide ((0:ℚ) < b))
  | .fin a, .inf p => if a = 0 then .nan else .inf (p == decide ((0:ℚ) < a))
  | .fin a, .fin b => .fin (a * b)

/-- Embedding of two-argument `Math.max`: NaN absorbs. -/
def jsMax : JSNum → JSNum → JSNum
  | .nan, _ => .nan
  | _, .nan => .nan
  | .inf true, _ => .inf true
  | _, .inf true => .inf true
  | .inf false, x => x
  | x, .inf false => x
  | .fin a, .fin b => .fin (max a b)

/-- Embedding of two-argument `Math.min`: NaN absorbs. -/
def jsMin : JSNum → JSNum → JSNum
  | .nan, _ => .nan
  | _, .nan => .nan
  | .inf false, _ => .inf false
  | _, .inf false => .inf false
  | .inf true, x => x
  | x, .inf true => x
  | .fin a, .fin b => .fin (min a b)

/-- Test `Number.isInteger(n) && n > 0` used by `pickDims`. -/
def isPosInt : JSNum → Bool
  | .fin q => q.den = 1 && 0 < q
  | _ => false

/-- Test `Number.isFinite(n) && n > 0` used by the aspect-ratio parsers. -/
def finPos : JSNum → Bool
  | .fin q => 0 < q
  | _ => false

/-- Finite value of a JavaScript number (0 for NaN and infinities; only read
behind a `finPos` guard). -/
def finVal : JSNum → ℚ
  | .fin q => q
  | _ => 0

/-! ### JSON values reaching the handler -/

/-- A JavaScript value as it can appear in a parsed JSON request field.
`other` stands for the non-primitive values (objects, and arrays whose
numeric coercion is NaN); it is truthy and coerces to NaN. -/
inductive JV where
  | undef : JV
  | null : JV
  | bool : Bool → JV
  | num : JSNum → JV
  | str : String → JV
  | other : JV
deriving DecidableEq

/-- Embedding of the `Number(value)` coercion. -/
def toNumber : JV → JSNum
  | .undef => .nan
  | .null => .fin 0
  | .bool b => .fin (if b then 1 else 0)
  | .num n => n
  | .str s => jsNumber s
  | .other => .nan

/-- JavaScript truthiness. -/
def truthy : JV → Bool
  | .undef => false
  | .null => false
  | .bool b => b
  | .num .nan => false
  | .num (.inf _) => true
  | .num (.fin q) => q ≠ 0
  | .str s => s ≠ ""
  | .other => true

/-- Embedding of `a || b`. -/
def jsOr (a b : JV) : JV :=
  if truthy a then a else b

/-! ### Constants and helpers of variant 1 (src/worker.js lines 3–8) -/

/-- Embedding of `DEFAULT_W = 1024` as the JavaScript value it is used as. -/
def DEFAULT_W : JV := .num (.fin 1024)

/-- Embedding of `DEFAULT_H = 1024`. -/
def DEFAULT_H : JV := .num (.fin 1024)

/-- Embedding of `MIN_DIM = 256`. -/
def MIN_DIM : JSNum := .fin 256

/-- Embedding of `MAX_DIM = 2048`. -/
def MAX_DIM : JSNum := .fin 2048

/-- Embedding of `clamp(n, lo, hi)` (line 8): `Math.min(hi, Math.max(lo, n))`.
The `Number` coercion that `Math.min`/`Math.max` apply to their arguments is
performed by the caller via `toNumber`. -/
def clamp (n lo hi : JSNum) : JSNum :=
  jsMin hi (jsMax lo n)

/-! ### Aspect-ratio parsing (lines 10–22 and 237–247) -/

/-- Embedding of `parseAspectRatio` (lines 10–22; the copy at lines 237–247
is the same algorithm written with one ternary instead of early returns).
A string of the form a:b or a/b yields a/b when both parts are finite and
positive; a bare positive finite number yields itself; everything else
yields `none` (JavaScript `null`).  `Number` is applied to each split part,
so each part is itself trimmed by `jsNumChars`. -/
def parseAspect (v : JV) : Option ℚ :=
  match v with
  | .str ar =>
    let s := trimChars ar.data
    if s = [] then none
    else if hasDelim s then
      let parts := (splitDelims s).map (fun p => jsNumChars p)
      let a := (parts.get? 0).getD .nan
      let b := (parts.get? 1).getD .nan
      if finPos a && finPos b then some (finVal a / finVal b) else none
    else
      let n := jsNumChars s
      if finPos n then some (finVal n) else none
  | _ => none

/-! ### Dimension resolution, variant 1 (lines 24–57) -/

/-- Embedding of the fallback-and-clamp step of `pickDims` (lines 53–54):
`clamp(x || 1024, MIN_DIM, MAX_DIM)`, with `DEFAULT_W`/`DEFAULT_H` both
equal to `1024`. -/
def dimFallback (v : JV) : JSNum :=
  clamp (toNumber (jsOr v DEFAULT_W)) MIN_DIM MAX_DIM

/-- Embedding of `pickDims` (lines 24–57).  The destructuring default
`longEdge = 1024` applies exactly when the field is `undefined`.  The local
`ar` is `parseAspectRatio(aspectRatio) || 1`: `parseAspectRatio` returns
`null` or a positive number, never `0`, so `Option.getD 1` is that `||`.
In the no-explicit-dimension branch the raw `longEdge` value (not its
number coercion) is assigned to one coordinate, exactly as in the source. -/
def pickDims (width height aspect le0 : JV) : JSNum × JSNum :=
  let longEdge := if le0 = .undef then .num (.fin 1024) else le0
  let w := toNumber width
  let h := toNumber height
  if isPosInt w && isPosInt h then
    (clamp w MIN_DIM MAX_DIM, clamp h MIN_DIM MAX_DIM)
  else
    let ar : ℚ := (parseAspect aspect).getD 1
    let p : JV × JV :=
      if isPosInt w then (.num w, .num (jsRound (jsDiv w (.fin ar))))
      else if isPosInt h then (.num (jsRound (jsMul h (.fin ar))), .num h)
      else if ar ≠ 0 then
        if 1 ≤ ar then (longEdge, .num (jsRound (jsDiv (toNumber longEdge) (.fin ar))))
        else (.num (jsRound (jsMul (toNumber longEdge) (.fin ar))), longEdge)
      else (.num w, .num h)
    (dimFallback p.1, dimFallback p.2)

/-! ### Dimension resolution, variant 2 (lines 164–184 and 227–234) -/

/-- Embedding of the clamp step inside `parseDim` (line 232):
`Math.min(max, Math.max(min, rounded))` with the fixed bounds. -/
def clampDim (r : ℤ) : ℤ :=
  min 2048 (max 256 r)

/-- Embedding of the align step inside `parseDim` (line 233):
`Math.max(align, Math.round(clamped / align) * align)` with `align = 8`. -/
def alignDim (c : ℤ) : ℤ :=
  max 8 (jround ((c : ℚ) / 8) * 8)

/-- Embedding of `parseDim` (lines 227–234).  The option object
`{ min = 256, max = 2048, align = 8 }` is never overridden at any call
site, so the defaults are fixed here.  For string inputs the source
computes `Number(v.trim())`; `Number` itself trims, so this is `toNumber`. -/
def parseDim (v : JV) : Option ℤ :=
  if v = .undef ∨ v = .null then none
  else
    match toNumber v with
    | .fin q => if 0 < q then some (alignDim (clampDim (jround q))) else none
    | _ => none

/-- Embedding of the final defaulting `w = w || 1024` of the second variant
(lines 183–184) on a `number | null` local. -/
def orDefault1024 (o : Option ℤ) : ℤ :=
  match o with
  | some z => if z = 0 then 1024 else z
  | none => 1024

/-- Truthiness of a `number | null` local of the second variant. -/
def otruthy : Option ℤ → Bool
  | none => false
  | some z => z ≠ 0

/-- Numeric value of such a local (read only behind a truthiness guard,
where it cannot be `null`). -/
def oval : Option ℤ → ℤ
  | some z => z
  | none => 0

/-- Embedding of the dimension-resolution block of the second variant
(lines 164–184): `parseDim` both explicit dimensions, default the ratio to
`1` and the long edge to `1024` with `??`, run the four-way priority
chain, then apply the final `|| 1024` defaults. -/
def resolveDimsV2 (width height aspect le0 : JV) : ℤ × ℤ :=
  let w0 := parseDim width
  let h0 := parseDim height
  let ar : ℚ := (parseAspect aspect).getD 1
  let longEdge : ℤ := (parseDim le0).getD 1024
  let p : Option ℤ × Option ℤ :=
    if otruthy w0 && otruthy h0 then (w0, h0)
    else if otruthy w0 && !otruthy h0 then
      (w0, parseDim (.num (.fin (jround ((oval w0 : ℚ) / ar) : ℤ))))
    else if !otruthy w0 && otruthy h0 then
      (parseDim (.num (.fin (jround ((oval h0 : ℚ) * ar) : ℤ))), h0)
    else if 1 ≤ ar then
      (parseDim (.num (.fin (longEdge : ℚ))),
       parseDim (.num (.fin (jround ((longEdge : ℚ) / ar) : ℤ))))
    else
      (parseDim (.num (.fin (jround ((longEdge : ℚ) * ar) : ℤ))),
       parseDim (.num (.fin (longEdge : ℚ))))
  (orDefault1024 p.1, orDefault1024 p.2)

/-! ### Model selection (lines 89–99 and 160–162) -/

/-- The default backend model identifier. -/
def DEFAULT_MODEL : String :=
  "@cf/stabilityai/stable-diffusion-xl-base-1.0"

/-- Embedding of `MODEL_WHITELIST` (lines 89–96). -/
def MODEL_WHITELIST : List String :=
  ["@cf/stabilityai/stable-diffusion-xl-base-1.0",
   "@cf/blackforestlabs/ux-1-schnell",
   "@cf/bytedance/stable-diffusion-xl-lightning",
   "@cf/lykon/dreamshaper-8-lcm",
   "@cf/runwayml/stable-diffusion-v1-5-img2img",
   "@cf/runwayml/stable-diffusion-v1-5-inpainting"]

/-- Embedding of the model selection of variant 1 (lines 97–99):
`MODEL_WHITELIST.has(model) ? model : default`.  The `Set` holds only
strings, so a non-string `model` is never a member. -/
def selectedModelV1 (m : JV) : String :=
  match m with
  | .str s => if MODEL_WHITELIST.contains s then s else DEFAULT_MODEL
  | _ => DEFAULT_MODEL

/-- Embedding of the model selection of variant 2 (lines 160–162):
`typeof body?.model === "string" ? body.model : default` — any string is
used verbatim, with no allow-list membership test. -/
def selectedModelV2 (m : JV) : String :=
  match m with
  | .str s => s
  | _ => DEFAULT_MODEL

/-! ### Requests, responses and the two fetch handlers -/

/-- The six request-body fields both handlers read.  A parsed JSON body is
represented by its fields, each `undef` when absent; a body that is not an
object behaves exactly like one with every field absent, since the handlers
only ever read these fields (variant 1 via `body || {}` destructuring,
variant 2 via `body?.field`). -/
structure Body where
  prompt : JV
  model : JV
  width : JV
  height : JV
  aspect : JV
  longEdge : JV
deriving DecidableEq

/-- An inbound HTTP request as the handlers observe it.  `auth` and
`contentType` are `headers.get(...)` results (`none` for `null`); `body`
is `none` when `await request.json()` would throw. -/
structure Req where
  method : String
  path : String
  auth : Option String
  contentType : Option String
  body : Option Body
deriving DecidableEq

/-- Observable outcome of a handler run: the terminal error responses, or
the call into the backend with the selected model, the validated prompt and
the resolved dimensions. -/
inductive Outcome where
  | preflight : Outcome
  | methodNotAllowed : Outcome
  | unauthorized : Outcome
  | unsupportedMedia : Outcome
  | invalidJson : Outcome
  | badPrompt : Outcome
  | promptTooLong : Outcome
  | serverError : Outcome
  | generate : String → String → JSNum → JSNum → Outcome
deriving DecidableEq

/-- HTTP status of each outcome, as set by the `json(...)`/`Response`
constructions in both variants. -/
def Outcome.status : Outcome → Nat
  | .preflight => 204
  | .methodNotAllowed => 405
  | .unauthorized => 401
  | .unsupportedMedia => 415
  | .invalidJson => 400
  | .badPrompt => 400
  | .promptTooLong => 413
  | .serverError => 500
  | .generate _ _ _ _ => 200

/-- The `Allow` header attached to a response, present exactly on the 405
responses of both variants (src/worker.js lines 65 and 145). -/
def Outcome.allowHeader : Outcome → Option String
  | .methodNotAllowed => some ("POST, OPTIONS")
  | _ => none

/-- Modelled from the spec: the helper `parseBearer`, which src/worker.js
line 1 keeps outside this file.  Spec 4.1: extract a bearer token from the
`Authorization` header, absent or malformed headers yielding no token. -/
def parseBearer (s : String) : Option String :=
  if leadsWith s.data (("Bearer ").data) then some (String.mk (s.data.drop 7))
  else none

/-- Modelled from the spec: the helper `safeEqual`, kept outside this file.
Spec 4.1: a constant-time comparison of the extracted token against the
configured secret; functionally it is string equality. -/
def safeEqual (a b : String) : Bool :=
  a = b

/-- Embedding of the first variant's `fetch` handler (src/worker.js lines
59–126), up to the backend call: OPTIONS pre-flight, method/path gate,
bearer auth, content type, JSON body, prompt validation, model selection
and dimension resolution. -/
def fetchV1 (req : Req) (apiKey : String) : Outcome :=
  if req.method = "OPTIONS" then .preflight
  else if req.path ≠ "/" ∨ req.method ≠ "POST" then .methodNotAllowed
  else
    let token := (parseBearer (req.auth.getD (""))).getD ("")
    if token = "" ∨ safeEqual token apiKey = false then .unauthorized
    else
      let ctype := lowerStr (req.contentType.getD (""))
      if hasSub ctype.data (("application/json").data) = false then .unsupportedMedia
      else
        match req.body with
        | none => .invalidJson
        | some b =>
          match b.prompt with
          | .str s =>
            let p := String.mk (trimChars s.data)
            if p = "" then .badPrompt
            else if 800 < p.length then .promptTooLong
            else
              let dims := pickDims b.width b.height b.aspect b.longEdge
              .generate (selectedModelV1 b.model) p dims.1 dims.2
          | _ => .badPrompt

/-- Embedding of the second variant's `fetch` handler (src/worker.js lines
128–205): OPTIONS pre-flight, then auth (exact string comparison against
`Bearer <key>`), then the method/path gate, then a try block in which a
JSON-parse failure or calling `.trim()` on a truthy non-string prompt
throws and is caught as the generic 500.  Falsy prompts are defaulted to
the empty string by `(body?.prompt || "")` and rejected as 400; there is
no length check and no allow-list test in this variant. -/
def fetchV2 (req : Req) (apiKey : String) : Outcome :=
  if req.method = "OPTIONS" then .preflight
  else if req.auth ≠ some ("Bearer " ++ apiKey) then .unauthorized
  else if req.method ≠ "POST" ∨ req.path ≠ "/" then .methodNotAllowed
  else
    let ctype := lowerStr (req.contentType.getD (""))
    if hasSub ctype.data (("application/json").data) = false then .unsupportedMedia
    else
      match req.body with
      | none => .serverError
      | some b =>
        match jsOr b.prompt (.str ("")) with
        | .str s =>
          let p := String.mk (trimChars s.data)
          if p = "" then .badPrompt
          else
            let dims := resolveDimsV2 b.width b.height b.aspect b.longEdge
            .generate (selectedModelV2 b.model) p (.fin (dims.1 : ℚ)) (.fin (dims.2 : ℚ))
        | _ => .serverError

/-! ### Basic facts about the embedding -/

theorem jround_intCast (z : ℤ) : jround (z : ℚ) = z := by
  unfold jround
  rw [Int.floor_int_add]
  norm_num

theorem jround_den_one (q : ℚ) (h : q.den = 1) : jround q = q.num := by
  conv_lhs => rw [← Rat.coe_int_num_of_den_eq_one h]
  exact jround_intCast q.num

theorem clamp_fin (q : ℚ) :
    clamp (.fin q) MIN_DIM MAX_DIM = .fin (min 2048 (max 256 q)) := rfl

theorem finPos_val (n : JSNum) (h : finPos n = true) : 0 < finVal n := by
  cases n with
  | nan => simp [finPos] at h
  | inf p => simp [finPos] at h
  | fin q => simpa [finPos, finVal] using h

theorem parseAspect_pos (v : JV) (q : ℚ) (h : parseAspect v = some q) : 0 < q := by
  cases v with
  | str s =>
    unfold parseAspect at h
    dsimp only at h
    split at h
    · cases h
    · split at h
      · split at h
        · rw [Option.some_inj] at h
          subst h
          rename_i hg
          rw [Bool.and_eq_true] at hg
          exact div_pos (finPos_val _ hg.1) (finPos_val _ hg.2)
        · cases h
      · split at h
        · rw [Option.some_inj] at h
          subst h
          rename_i hg
          exact finPos_val _ hg
        · cases h
  | undef => cases h
  | null => cases h
  | bool b => cases h
  | num n => cases h
  | other => cases h

theorem aspect_getD_pos (v : JV) : 0 < (parseAspect v).getD 1 := by
  cases h : parseAspect v with
  | none => simp
  | some q => simpa using parseAspect_pos v q h

theorem aspect_getD_ne_zero (v : JV) : (parseAspect v).getD 1 ≠ 0 :=
  ne_of_gt (aspect_getD_pos v)

theorem clampDim_bounds (r : ℤ) : 256 ≤ clampDim r ∧ clampDim r ≤ 2048 := by
  unfold clampDim
  constructor
  · exact le_min (by norm_num) (le_max_left 256 r)
  · exact min_le_left 2048 _

theorem alignDim_ge (c : ℤ) : 8 ≤ alignDim c :=
  le_max_left 8 _

theorem alignDim_bounds (c : ℤ) (h1 : 256 ≤ c) (h2 : c ≤ 2048) :
    256 ≤ alignDim c ∧ alignDim c ≤ 2048 ∧ 8 ∣ alignDim c := by
  have h32 : (32 : ℤ) ≤ jround ((c : ℚ) / 8) := by
    rw [jround, Int.le_floor]
    have : (256 : ℚ) ≤ (c : ℚ) := by exact_mod_cast h1
    push_cast
    linarith
  have h256 : jround ((c : ℚ) / 8) ≤ 256 := by
    have hc : (c : ℚ) ≤ 2048 := by exact_mod_cast h2
    have hlt : ((c : ℚ) / 8 + 1 / 2) < ((257 : ℤ) : ℚ) := by push_cast; linarith
    have := Int.floor_lt.mpr hlt
    rw [jround]
    omega
  have hmax : alignDim c = jround ((c : ℚ) / 8) * 8 := by
    unfold alignDim
    exact max_eq_right (by nlinarith)
  refine ⟨?_, ?_, ?_⟩
  · rw [hmax]; nlinarith
  · rw [hmax]; nlinarith
  · rw [hmax]; exact dvd_mul_left 8 _

theorem parseDim_some (v : JV) (z : ℤ) (h : parseDim v = some z) :
    256 ≤ z ∧ z ≤ 2048 ∧ 8 ∣ z := by
  unfold parseDim at h
  split at h
  · cases h
  · split at h
    · split at h
      · rw [Option.some_inj] at h
        subst h
        obtain ⟨hb1, hb2⟩ := clampDim_bounds (jround _)
        exact alignDim_bounds _ hb1 hb2
      · cases h
    · cases h

theorem parseDim_posval (q : ℚ) (hd : q.den = 1) (hp : 0 < q) :
    parseDim (.num (.fin q)) = some (alignDim (clampDim q.num)) := by
  unfold parseDim
  rw [if_neg (by simp)]
  show (if 0 < q then some (alignDim (clampDim (jround q))) else none) = _
  rw [if_pos hp, jround_den_one q hd]

theorem parseDim_int (z : ℤ) (hp : 0 < z) :
    parseDim (.num (.fin (z : ℚ))) = some (alignDim (clampDim z)) := by
  have := parseDim_posval (z : ℚ) (Rat.den_intCast z) (by exact_mod_cast hp)
  rwa [Rat.num_intCast] at this

theorem parseDim_fixed (z : ℤ) (h1 : 256 ≤ z) (h2 : z ≤ 2048) (h3 : 8 ∣ z) :
    parseDim (.num (.fin (z : ℚ))) = some z := by
  rw [parseDim_int z (by omega)]
  congr 1
  have hcl : clampDim z = z := by
    unfold clampDim
    rw [max_eq_right h1, min_eq_right h2]
  rw [hcl]
  obtain ⟨k, rfl⟩ := h3
  unfold alignDim
  have hq : ((8 * k : ℤ) : ℚ) / 8 = (k : ℤ) := by push_cast; ring
  rw [hq, jround_intCast]
  rw [max_eq_right (by omega)]
  ring

theorem parseDim_getD_bounds (v : JV) :
    256 ≤ (parseDim v).getD 1024 ∧ (parseDim v).getD 1024 ≤ 2048 ∧
      8 ∣ (parseDim v).getD 1024 := by
  cases h : parseDim v with
  | none => norm_num
  | some z => simpa using parseDim_some v z h

theorem orDefault1024_bounds (o : Option ℤ)
    (h : ∀ z, o = some z → 256 ≤ z ∧ z ≤ 2048 ∧ 8 ∣ z) :
    256 ≤ orDefault1024 o ∧ orDefault1024 o ≤ 2048 ∧ 8 ∣ orDefault1024 o := by
  cases o with
  | none => norm_num [orDefault1024]
  | some z =>
    obtain ⟨h1, h2, h3⟩ := h z rfl
    rw [orDefault1024, if_neg (by omega)]
    exact ⟨h1, h2, h3⟩

theorem orDefault1024_some (z : ℤ) (h : z ≠ 0) : orDefault1024 (some z) = z := by
  rw [orDefault1024, if_neg h]

theorem resolveDimsV2_bounds (width height aspect le0 : JV) :
    (256 ≤ (resolveDimsV2 width height aspect le0).1 ∧
      (resolveDimsV2 width height aspect le0).1 ≤ 2048 ∧
      8 ∣ (resolveDimsV2 width height aspect le0).1) ∧
    (256 ≤ (resolveDimsV2 width height aspect le0).2 ∧
      (resolveDimsV2 width height aspect le0).2 ≤ 2048 ∧
      8 ∣ (resolveDimsV2 width height aspect le0).2) := by
  unfold resolveDimsV2
  dsimp only
  repeat' split
  all_goals dsimp only
  all_goals
    exact ⟨orDefault1024_bounds _ (fun z hz => parseDim_some _ z hz),
           orDefault1024_bounds _ (fun z hz => parseDim_some _ z hz)⟩

theorem leadsWith_append (l1 l2 : List Char) : leadsWith (l1 ++ l2) l1 = true := by
  induction l1 with
  | nil => simp [leadsWith]
  | cons c t ih => simpa [leadsWith] using ih

theorem parseBearer_bearer (key : String) :
    parseBearer ("Bearer " ++ key) = some key := by
  unfold parseBearer
  rw [String.data_append, if_pos (leadsWith_append _ _)]
  rw [List.drop_left' (by rfl)]

theorem splitDelims_ne_nil (l : List Char) : splitDelims l ≠ [] := by
  induction l with
  | nil => simp [splitDelims]
  | cons c t ih =>
    unfold splitDelims
    split
    · simp
    · split
      · simp
      · simp

theorem hasDelim_of_split (l : List Char) (p q : List Char) (r : List (List Char))
    (h : splitDelims l = p :: q :: r) : hasDelim l = true := by
  induction l generalizing p q r with
  | nil => simp [splitDelims] at h
  | cons c t ih =>
    unfold splitDelims at h
    by_cases hc : c = ':' ∨ c = '/'
    · unfold hasDelim
      rcases hc with hc | hc <;> subst hc <;> simp
    · rw [if_neg hc] at h
      rcases hs : splitDelims t with _ | ⟨p', ps⟩
      · exact absurd hs (splitDelims_ne_nil t)
      · rw [hs] at h
        injection h with h1 h2
        subst h2
        have hmem := ih p' q r hs
        unfold hasDelim at hmem ⊢
        rw [List.contains_cons, List.contains_cons]
        have hmem' : t.contains ':' = true ∨ t.contains '/' = true := by
          simpa using hmem
        rcases hmem' with hm | hm <;> simp at hm ⊢ <;> tauto

theorem hasDelim_ne_nil (l : List Char) (h : hasDelim l = true) : l ≠ [] := by
  intro hl
  subst hl
  simp [hasDelim] at h

theorem fetchV1_prompt_str (key : String) (ct : Option String) (b : Body) (s : String)
    (hk : key ≠ "")
    (hct : hasSub (lowerStr (ct.getD (""))).data (("application/json").data) = true)
    (hps : b.prompt = JV.str s) :
    fetchV1 ⟨"POST", "/", some ("Bearer " ++ key), ct, some b⟩ key =
      (if String.mk (trimChars s.data) = "" then Outcome.badPrompt
       else if 800 < (String.mk (trimChars s.data)).length then Outcome.promptTooLong
       else Outcome.generate (selectedModelV1 b.model) (String.mk (trimChars s.data))
         (pickDims b.width b.height b.aspect b.longEdge).1
         (pickDims b.width b.height b.aspect b.longEdge).2) := by
  have hna : ¬ (key = "" ∨ safeEqual key key = false) := by
    rintro (hx | hx)
    · exact hk hx
    · simp [safeEqual] at hx
  simp only [fetchV1]
  rw [if_neg (by decide), if_neg (by decide)]
  rw [show (some ("Bearer " ++ key)).getD ("") = "Bearer " ++ key from rfl]
  rw [parseBearer_bearer key]
  rw [show (some key).getD ("") = key from rfl]
  rw [if_neg hna]
  rw [if_neg (fun hx => by rw [hct] at hx; exact Bool.noConfusion hx)]
  rw [hps]

theorem fetchV2_validated (key : String) (ct : Option String) (b : Body)
    (hct : hasSub (lowerStr (ct.getD (""))).data (("application/json").data) = true) :
    fetchV2 ⟨"POST", "/", some ("Bearer " ++ key), ct, some b⟩ key =
      (match jsOr b.prompt (JV.str ("")) with
       | JV.str s =>
         if String.mk (trimChars s.data) = "" then Outcome.badPrompt
         else Outcome.generate (selectedModelV2 b.model) (String.mk (trimChars s.data))
           (JSNum.fin ((resolveDimsV2 b.width b.height b.aspect b.longEdge).1 : ℚ))
           (JSNum.fin ((resolveDimsV2 b.width b.height b.aspect b.longEdge).2 : ℚ))
       | _ => Outcome.serverError) := by
  simp only [fetchV2]
  rw [if_neg (by decide), if_neg (by simp), if_neg (by simp)]
  rw [if_neg (fun hx => by rw [hct] at hx; exact Bool.noConfusion hx)]

theorem dimFallback_fin (q : ℚ) (h : q ≠ 0) :
    dimFallback (JV.num (JSNum.fin q)) = JSNum.fin (min 2048 (max 256 q)) := by
  unfold dimFallback jsOr
  rw [if_pos (show truthy (JV.num (JSNum.fin q)) = true from decide_eq_true h)]
  exact clamp_fin q

theorem jsDiv_fin (a b : ℚ) (hb : b ≠ 0) :
    jsDiv (JSNum.fin a) (JSNum.fin b) = JSNum.fin (a / b) := by
  show (if b = 0 then (if a = 0 then JSNum.nan else JSNum.inf (decide ((0:ℚ) ≤ a)))
    else JSNum.fin (a / b)) = JSNum.fin (a / b)
  rw [if_neg hb]

theorem jsMul_fin (a b : ℚ) :
    jsMul (JSNum.fin a) (JSNum.fin b) = JSNum.fin (a * b) := rfl

/-! ### Claim theorems -/

/-- C1 (code bug): the first variant's dimension resolver is not a total
function into positive integers within [256, 2048].  For the input object
whose only sizing field is the non-numeric string `"abc"` as `longEdge`,
the truthy string skips the `|| 1024` default and is coerced by `clamp` to
NaN, which then reaches the backend call of a fully authenticated request.
The second variant is total (see the alignment theorem for C9). -/
theorem claim1_pickDims_nan :
    pickDims JV.undef JV.undef JV.undef (JV.str ("abc")) = (JSNum.nan, JSNum.fin 1024) ∧
    fetchV1 ⟨"POST", "/", some ("Bearer k"), some ("application/json"),
        some ⟨JV.str ("x"), JV.undef, JV.undef, JV.undef, JV.undef, JV.str ("abc")⟩⟩ "k"
      = Outcome.generate DEFAULT_MODEL ("x") JSNum.nan (JSNum.fin 1024) := by
  constructor
  · with_unfolding_all decide
  · with_unfolding_all decide

/-- C2 (counterexample): in the second variant an unknown string model is
passed to the backend verbatim — it is not a member of the allow-list and
no default is substituted, refuting the claim for that variant. -/
theorem claim2_model_counterexample :
    selectedModelV2 (JV.str ("not-a-real-model")) = "not-a-real-model" ∧
    MODEL_WHITELIST.contains ("not-a-real-model") = false ∧
    fetchV2 ⟨"POST", "/", some ("Bearer k"), some ("application/json"),
        some ⟨JV.str ("x"), JV.str ("not-a-real-model"), JV.undef, JV.undef, JV.undef,
          JV.undef⟩⟩ "k"
      = Outcome.generate ("not-a-real-model") ("x") (JSNum.fin 1024) (JSNum.fin 1024) := by
  refine ⟨rfl, by decide, ?_⟩
  with_unfolding_all decide

/-- C2 (amended): variant 1 enforces the allow-list exactly as claimed —
the selected model is always a member, allow-listed strings are used
verbatim and every other value falls to the fixed default — while variant 2
uses any string verbatim and substitutes the default only for non-string
values. -/
theorem claim2_model_allowlist (m : JV) :
    MODEL_WHITELIST.contains (selectedModelV1 m) = true ∧
    (∀ s : String, m = JV.str s → MODEL_WHITELIST.contains s = true →
      selectedModelV1 m = s) ∧
    (∀ s : String, m = JV.str s → MODEL_WHITELIST.contains s = false →
      selectedModelV1 m = DEFAULT_MODEL) ∧
    (∀ s : String, m = JV.str s → selectedModelV2 m = s) ∧
    ((∀ s : String, m ≠ JV.str s) →
      selectedModelV1 m = DEFAULT_MODEL ∧ selectedModelV2 m = DEFAULT_MODEL) := by
  cases m with
  | str s =>
    refine ⟨?_, ?_, ?_, ?_, ?_⟩
    · show MODEL_WHITELIST.contains
          (if MODEL_WHITELIST.contains s = true then s else DEFAULT_MODEL) = true
      by_cases hc : MODEL_WHITELIST.contains s = true
      · rw [if_pos hc]
        exact hc
      · rw [if_neg hc]
        decide
    · intro s' hs hc
      injection hs with h
      subst h
      show (if MODEL_WHITELIST.contains s = true then s else DEFAULT_MODEL) = s
      rw [if_pos hc]
    · intro s' hs hc
      injection hs with h
      subst h
      show (if MODEL_WHITELIST.contains s = true then s else DEFAULT_MODEL) = DEFAULT_MODEL
      rw [if_neg (fun hx => by rw [hc] at hx; exact Bool.noConfusion hx)]
    · intro s' hs
      rw [hs]
      rfl
    · intro hno
      exact absurd rfl (hno s)
  | undef =>
    exact ⟨show MODEL_WHITELIST.contains DEFAULT_MODEL = true by decide,
      fun s hs => JV.noConfusion hs, fun s hs => JV.noConfusion hs,
      fun s hs => JV.noConfusion hs, fun _ => ⟨rfl, rfl⟩⟩
  | null =>
    exact ⟨show MODEL_WHITELIST.contains DEFAULT_MODEL = true by decide,
      fun s hs => JV.noConfusion hs, fun s hs => JV.noConfusion hs,
      fun s hs => JV.noConfusion hs, fun _ => ⟨rfl, rfl⟩⟩
  | bool b =>
    exact ⟨show MODEL_WHITELIST.contains DEFAULT_MODEL = true by decide,
      fun s hs => JV.noConfusion hs, fun s hs => JV.noConfusion hs,
      fun s hs => JV.noConfusion hs, fun _ => ⟨rfl, rfl⟩⟩
  | num n =>
    exact ⟨show MODEL_WHITELIST.contains DEFAULT_MODEL = true by decide,
      fun s hs => JV.noConfusion hs, fun s hs => JV.noConfusion hs,
      fun s hs => JV.noConfusion hs, fun _ => ⟨rfl, rfl⟩⟩
  | other =>
    exact ⟨show MODEL_WHITELIST.contains DEFAULT_MODEL = true by decide,
      fun s hs => JV.noConfusion hs, fun s hs => JV.noConfusion hs,
      fun s hs => JV.noConfusion hs, fun _ => ⟨rfl, rfl⟩⟩

/-- Witness for the amended C2 at concrete inputs: an allow-listed string
passes variant 1 verbatim, and an arbitrary non-listed string falls to the
default there. -/
theorem claim2_model_witness :
    selectedModelV1 (JV.str ("@cf/lykon/dreamshaper-8-lcm")) = "@cf/lykon/dreamshaper-8-lcm" ∧
    selectedModelV1 (JV.str ("zzz")) = DEFAULT_MODEL := by
  constructor
  · exact (claim2_model_allowlist (JV.str ("@cf/lykon/dreamshaper-8-lcm"))).2.1 _ rfl (by decide)
  · exact (claim2_model_allowlist (JV.str ("zzz"))).2.2.1 _ rfl (by decide)

/-- C9: in the alignment variant, every input accepted by `parseDim` yields
a multiple of 8 that is at least the alignment unit and still within
[256, 2048]; consequently both coordinates produced by that variant's
dimension resolution are multiples of 8 in [256, 2048], for every input. -/
theorem claim9_alignment :
    (∀ (v : JV) (z : ℤ), parseDim v = some z →
      8 ∣ z ∧ 8 ≤ z ∧ 256 ≤ z ∧ z ≤ 2048) ∧
    (∀ width height aspect le0 : JV,
      (8 ∣ (resolveDimsV2 width height aspect le0).1 ∧
        256 ≤ (resolveDimsV2 width height aspect le0).1 ∧
        (resolveDimsV2 width height aspect le0).1 ≤ 2048) ∧
      (8 ∣ (resolveDimsV2 width height aspect le0).2 ∧
        256 ≤ (resolveDimsV2 width height aspect le0).2 ∧
        (resolveDimsV2 width height aspect le0).2 ≤ 2048)) := by
  constructor
  · intro v z h
    obtain ⟨h1, h2, h3⟩ := parseDim_some v z h
    exact ⟨h3, by omega, h1, h2⟩
  · intro width height aspect le0
    obtain ⟨⟨a1, a2, a3⟩, b1, b2, b3⟩ := resolveDimsV2_bounds width height aspect le0
    exact ⟨⟨a3, a1, a2⟩, b3, b1, b2⟩

/-- Witness for C9 at the accepted concrete input 1000. -/
theorem claim9_witness :
    8 ∣ (1000 : ℤ) ∧ 8 ≤ (1000 : ℤ) ∧ 256 ≤ (1000 : ℤ) ∧ (1000 : ℤ) ≤ 2048 :=
  claim9_alignment.1 (JV.num (JSNum.fin 1000)) 1000 (by with_unfolding_all decide)

/-- C8 (counterexample): for the input whose only sizing field is the
non-numeric string `"oops"` as `longEdge`, the dimension is still not a
positive number after the precedence rules, yet the first variant does not
substitute 1024 for it — the width comes out NaN, not 1024. -/
theorem claim8_counterexample :
    pickDims JV.undef JV.undef JV.undef (JV.str ("oops")) = (JSNum.nan, JSNum.fin 1024) := by
  with_unfolding_all decide

/-- C8 (amended): the 1024 default of the first variant is substituted
exactly for falsy dimension values (NaN, 0, null, undefined, the empty
string), and the substituted value is then clamped; a truthy value with a
numeric coercion is clamped; but a truthy value coercing to NaN — reachable
via a truthy non-numeric `longEdge` — skips the substitution and clamps to
NaN.  In the second variant the final `|| 1024` default applies exactly to
the null and zero cases. -/
theorem claim8_fallback (v : JV) :
    (truthy v = false → dimFallback v = JSNum.fin 1024) ∧
    (∀ q : ℚ, truthy v = true → toNumber v = JSNum.fin q →
      dimFallback v = JSNum.fin (min 2048 (max 256 q))) ∧
    (truthy v = true → toNumber v = JSNum.nan → dimFallback v = JSNum.nan) ∧
    orDefault1024 none = 1024 ∧ orDefault1024 (some 0) = 1024 := by
  refine ⟨?_, ?_, ?_, rfl, rfl⟩
  · intro h
    unfold dimFallback jsOr
    rw [h]
    simp only [Bool.false_eq_true, if_false]
    with_unfolding_all decide
  · intro q ht hn
    unfold dimFallback jsOr
    rw [ht]
    simp only [if_true]
    rw [hn]
    exact clamp_fin q
  · intro ht hn
    unfold dimFallback jsOr
    rw [ht]
    simp only [if_true]
    rw [hn]
    rfl

/-- Witness for the amended C8: a falsy NaN dimension value receives the
1024 default. -/
theorem claim8_witness : dimFallback (JV.num JSNum.nan) = JSNum.fin 1024 :=
  (claim8_fallback (JV.num JSNum.nan)).1 (by decide)

/-- C5: full characterization of `parseAspectRatio`.  A trimmed string that
splits at the delimiters into exactly two parts returns part one over part
two when both parts are finite positive numbers, and null otherwise; a
delimiter-free string returns its own finite positive numeric value, and
null otherwise; a non-string or a string that trims to empty returns null;
and on null the dimension resolution falls back to ratio 1, which is also
always the sign of the ratio used. -/
theorem claim5_parseAspectRatio_spec (v : JV) :
    (∀ s : String, v = JV.str s →
      (∀ p1 p2 : List Char, splitDelims (trimChars s.data) = [p1, p2] →
        (finPos (jsNumChars p1) = true → finPos (jsNumChars p2) = true →
          parseAspect v = some (finVal (jsNumChars p1) / finVal (jsNumChars p2))) ∧
        ((finPos (jsNumChars p1) && finPos (jsNumChars p2)) = false →
          parseAspect v = none)) ∧
      (hasDelim (trimChars s.data) = false → trimChars s.data ≠ [] →
        (∀ n : ℚ, jsNumChars (trimChars s.data) = JSNum.fin n → 0 < n →
          parseAspect v = some n) ∧
        (finPos (jsNumChars (trimChars s.data)) = false → parseAspect v = none)) ∧
      (trimChars s.data = [] → parseAspect v = none)) ∧
    ((∀ s : String, v ≠ JV.str s) → parseAspect v = none) ∧
    (parseAspect v = none → (parseAspect v).getD 1 = 1) ∧
    0 < (parseAspect v).getD 1 := by
  refine ⟨?_, ?_, ?_, aspect_getD_pos v⟩
  · intro s hs
    subst hs
    refine ⟨?_, ?_, ?_⟩
    · intro p1 p2 hsplit
      have hdelim : hasDelim (trimChars s.data) = true :=
        hasDelim_of_split _ p1 p2 [] hsplit
      have hne : trimChars s.data ≠ [] := hasDelim_ne_nil _ hdelim
      constructor
      · intro f1 f2
        unfold parseAspect
        dsimp only
        rw [if_neg hne, if_pos hdelim, hsplit]
        simp [f1, f2]
      · intro hg
        unfold parseAspect
        dsimp only
        rw [if_neg hne, if_pos hdelim, hsplit]
        simp only [List.map_cons, List.map_nil, List.get?_cons_zero, List.get?_cons_succ,
          Option.getD_some]
        rw [if_neg (fun hx => by rw [hg] at hx; exact Bool.noConfusion hx)]
    · intro hdelim hne
      constructor
      · intro n hn hp
        unfold parseAspect
        dsimp only
        rw [if_neg hne, if_neg (fun hx => by rw [hdelim] at hx; exact Bool.noConfusion hx)]
        rw [hn]
        simp only [finPos, finVal]
        rw [if_pos (by simpa using hp)]
      · intro hf
        unfold parseAspect
        dsimp only
        rw [if_neg hne, if_neg (fun hx => by rw [hdelim] at hx; exact Bool.noConfusion hx)]
        rw [if_neg (fun hx => by rw [hf] at hx; exact Bool.noConfusion hx)]
    · intro hnil
      unfold parseAspect
      dsimp only
      rw [if_pos hnil]
  · intro hno
    cases v with
    | str s => exact absurd rfl (hno s)
    | undef => rfl
    | null => rfl
    | bool b => rfl
    | num n => rfl
    | other => rfl
  · intro h
    rw [h]
    rfl

/-- Witness for C5 at concrete inputs: a two-part ratio, a rejected
zero-numerator ratio, a bare decimal, and a non-string. -/
theorem claim5_witness :
    parseAspect (JV.str ("16:9")) = some (16 / 9) ∧
    parseAspect (JV.str ("0:5")) = none ∧
    parseAspect (JV.str ("1.777")) = some (1777 / 1000) ∧
    parseAspect JV.undef = none := by
  refine ⟨?_, ?_, ?_, ?_⟩
  · have h := (((claim5_parseAspectRatio_spec (JV.str ("16:9"))).1 _ rfl).1
      ['1', '6'] ['9'] (by decide)).1 (by with_unfolding_all decide)
      (by with_unfolding_all decide)
    exact h.trans (by with_unfolding_all decide)
  · exact (((claim5_parseAspectRatio_spec (JV.str ("0:5"))).1 _ rfl).1
      ['0'] ['5'] (by decide)).2 (by with_unfolding_all decide)
  · have h := (((claim5_parseAspectRatio_spec (JV.str ("1.777"))).1 _ rfl).2.1
      (by decide) (by decide)).1 (1777 / 1000) (by with_unfolding_all decide)
      (by with_unfolding_all decide)
    exact h
  · exact (claim5_parseAspectRatio_spec JV.undef).2.1 (fun s hs => JV.noConfusion hs)

/-- C10: a string with more than one `:` or `/` delimiter is not rejected —
only the first two split components are used, and when both are finite and
positive the result is their quotient, whatever the remaining components
hold. -/
theorem claim10_split_extra (s : String) (p1 p2 : List Char) (rest : List (List Char))
    (hsplit : splitDelims (trimChars s.data) = p1 :: p2 :: rest)
    (h1 : finPos (jsNumChars p1) = true) (h2 : finPos (jsNumChars p2) = true) :
    parseAspect (JV.str s) = some (finVal (jsNumChars p1) / finVal (jsNumChars p2)) := by
  have hdelim : hasDelim (trimChars s.data) = true :=
    hasDelim_of_split _ p1 p2 rest hsplit
  have hne : trimChars s.data ≠ [] := hasDelim_ne_nil _ hdelim
  unfold parseAspect
  dsimp only
  rw [if_neg hne, if_pos hdelim, hsplit]
  simp [h1, h2]

/-- Witness for C10: the three-part string 16:9:4 yields 16/9 rather than
null. -/
theorem claim10_witness : parseAspect (JV.str ("16:9:4")) = some (16 / 9) := by
  have h := claim10_split_extra ("16:9:4") ['1', '6'] ['9'] [['4']]
    (by decide) (by with_unfolding_all decide) (by with_unfolding_all decide)
  exact h.trans (by with_unfolding_all decide)

/-- C6: when both width and height are given as positive integers, variant 1
returns exactly their clamps to [256, 2048] and variant 2 the 8-aligned
value of each clamp, independently of the aspect-ratio and long-edge
fields; a pair already within bounds passes through variant 1 unchanged. -/
theorem claim6_explicit_pair (wq hq : ℚ) (aspect le0 : JV)
    (hwd : wq.den = 1) (hwp : 0 < wq) (hhd : hq.den = 1) (hhp : 0 < hq) :
    pickDims (JV.num (JSNum.fin wq)) (JV.num (JSNum.fin hq)) aspect le0
      = (JSNum.fin (min 2048 (max 256 wq)), JSNum.fin (min 2048 (max 256 hq))) ∧
    resolveDimsV2 (JV.num (JSNum.fin wq)) (JV.num (JSNum.fin hq)) aspect le0
      = (alignDim (clampDim wq.num), alignDim (clampDim hq.num)) ∧
    (256 ≤ wq → wq ≤ 2048 →
      (pickDims (JV.num (JSNum.fin wq)) (JV.num (JSNum.fin hq)) aspect le0).1
        = JSNum.fin wq) ∧
    (256 ≤ hq → hq ≤ 2048 →
      (pickDims (JV.num (JSNum.fin wq)) (JV.num (JSNum.fin hq)) aspect le0).2
        = JSNum.fin hq) := by
  have hwi : isPosInt (toNumber (JV.num (JSNum.fin wq))) = true := by
    simp [toNumber, isPosInt, hwd, hwp]
  have hhi : isPosInt (toNumber (JV.num (JSNum.fin hq))) = true := by
    simp [toNumber, isPosInt, hhd, hhp]
  have hv1 : pickDims (JV.num (JSNum.fin wq)) (JV.num (JSNum.fin hq)) aspect le0
      = (JSNum.fin (min 2048 (max 256 wq)), JSNum.fin (min 2048 (max 256 hq))) := by
    simp only [pickDims]
    rw [if_pos (by rw [hwi, hhi]; rfl)]
    rw [show toNumber (JV.num (JSNum.fin wq)) = JSNum.fin wq from rfl,
        show toNumber (JV.num (JSNum.fin hq)) = JSNum.fin hq from rfl,
        clamp_fin, clamp_fin]
  have hw0 := parseDim_posval wq hwd hwp
  have hh0 := parseDim_posval hq hhd hhp
  have hw8 := alignDim_ge (clampDim wq.num)
  have hh8 := alignDim_ge (clampDim hq.num)
  have hv2 : resolveDimsV2 (JV.num (JSNum.fin wq)) (JV.num (JSNum.fin hq)) aspect le0
      = (alignDim (clampDim wq.num), alignDim (clampDim hq.num)) := by
    simp only [resolveDimsV2]
    rw [hw0, hh0]
    rw [if_pos (by simp [otruthy]; omega)]
    dsimp only
    rw [orDefault1024_some _ (by omega), orDefault1024_some _ (by omega)]
  refine ⟨hv1, hv2, ?_, ?_⟩
  · intro h1 h2
    rw [hv1]
    dsimp only
    rw [max_eq_right h1, min_eq_right h2]
  · intro h1 h2
    rw [hv1]
    dsimp only
    rw [max_eq_right h1, min_eq_right h2]

/-- Witness for C6: the explicit pair 1920 by 1080 passes variant 1
unchanged and is 8-aligned (hence unchanged too) in variant 2, regardless
of a conflicting aspect ratio and long edge. -/
theorem claim6_witness :
    pickDims (JV.num (JSNum.fin 1920)) (JV.num (JSNum.fin 1080)) (JV.str ("3:4"))
      (JV.num (JSNum.fin 500)) = (JSNum.fin 1920, JSNum.fin 1080) ∧
    resolveDimsV2 (JV.num (JSNum.fin 1920)) (JV.num (JSNum.fin 1080)) (JV.str ("3:4"))
      (JV.num (JSNum.fin 500)) = (1920, 1080) := by
  have h := claim6_explicit_pair 1920 1080 (JV.str ("3:4")) (JV.num (JSNum.fin 500))
    (by with_unfolding_all decide) (by with_unfolding_all decide)
    (by with_unfolding_all decide) (by with_unfolding_all decide)
  exact ⟨h.1.trans (by with_unfolding_all decide),
    h.2.1.trans (by with_unfolding_all decide)⟩

/-- C7 (amended): variant 1 derives both dimensions from the long edge
(default 1024) exactly when neither numeric coercion is a positive integer,
while variant 2 does so only when `parseDim` rejects both explicit
dimensions — a strictly narrower trigger, since `parseDim` accepts any
positive finite number or numeric string, integer or not.  On the long-edge
path both variants follow the dominant axis of the ratio — width takes the
long edge and height the rounded quotient when the ratio is at least 1,
mirrored otherwise, before clamping (and alignment in variant 2) — and the
stated examples 16:9 at 1920 and 16:9 alone resolve to 1920 by 1080 and
1024 by 576 in both variants. -/
theorem claim7_longEdge_derivation (width height aspect le0 : JV) (le : ℚ) :
    (isPosInt (toNumber width) = false → isPosInt (toNumber height) = false →
      0 < le →
      (1 ≤ (parseAspect aspect).getD 1 →
        0 < jround (le / (parseAspect aspect).getD 1) →
        pickDims width height aspect (JV.num (JSNum.fin le)) =
          (JSNum.fin (min 2048 (max 256 le)),
           JSNum.fin (min 2048 (max 256
             ((jround (le / (parseAspect aspect).getD 1) : ℤ) : ℚ))))) ∧
      ((parseAspect aspect).getD 1 < 1 →
        0 < jround (le * (parseAspect aspect).getD 1) →
        pickDims width height aspect (JV.num (JSNum.fin le)) =
          (JSNum.fin (min 2048 (max 256
             ((jround (le * (parseAspect aspect).getD 1) : ℤ) : ℚ))),
           JSNum.fin (min 2048 (max 256 le)))) ∧
      pickDims width height aspect JV.undef =
        pickDims width height aspect (JV.num (JSNum.fin 1024))) ∧
    (parseDim width = none → parseDim height = none →
      (1 ≤ (parseAspect aspect).getD 1 →
        0 < jround ((((parseDim le0).getD 1024 : ℤ) : ℚ) / (parseAspect aspect).getD 1) →
        resolveDimsV2 width height aspect le0 =
          ((parseDim le0).getD 1024,
           alignDim (clampDim (jround ((((parseDim le0).getD 1024 : ℤ) : ℚ) /
             (parseAspect aspect).getD 1))))) ∧
      ((parseAspect aspect).getD 1 < 1 →
        0 < jround ((((parseDim le0).getD 1024 : ℤ) : ℚ) * (parseAspect aspect).getD 1) →
        resolveDimsV2 width height aspect le0 =
          (alignDim (clampDim (jround ((((parseDim le0).getD 1024 : ℤ) : ℚ) *
             (parseAspect aspect).getD 1))),
           (parseDim le0).getD 1024))) ∧
    (pickDims JV.undef JV.undef (JV.str ("16:9")) (JV.num (JSNum.fin 1920)) =
        (JSNum.fin 1920, JSNum.fin 1080) ∧
      pickDims JV.undef JV.undef (JV.str ("16:9")) JV.undef =
        (JSNum.fin 1024, JSNum.fin 576) ∧
      resolveDimsV2 JV.undef JV.undef (JV.str ("16:9")) (JV.num (JSNum.fin 1920)) =
        (1920, 1080) ∧
      resolveDimsV2 JV.undef JV.undef (JV.str ("16:9")) JV.undef = (1024, 576)) := by
  refine ⟨?_, ?_, ?_, ?_, ?_, ?_⟩
  · intro hw hh hle
    have har := aspect_getD_pos aspect
    have hne0 := aspect_getD_ne_zero aspect
    constructor
    · intro hr hro
      simp only [pickDims]
      rw [if_neg (show ¬ (JV.num (JSNum.fin le) = JV.undef) by simp)]
      rw [if_neg (fun hx => by rw [hw] at hx; simp at hx)]
      simp only [hw, hh, Bool.false_eq_true, if_false]
      rw [if_pos hne0, if_pos hr]
      dsimp only [toNumber]
      rw [jsDiv_fin le _ hne0]
      show (dimFallback (JV.num (JSNum.fin le)),
        dimFallback (JV.num (JSNum.fin ((jround (le / (parseAspect aspect).getD 1) : ℤ) : ℚ)))) = _
      rw [dimFallback_fin le (ne_of_gt hle),
        dimFallback_fin _ (by exact_mod_cast ne_of_gt hro)]
    constructor
    · intro hr hro
      simp only [pickDims]
      rw [if_neg (show ¬ (JV.num (JSNum.fin le) = JV.undef) by simp)]
      rw [if_neg (fun hx => by rw [hw] at hx; simp at hx)]
      simp only [hw, hh, Bool.false_eq_true, if_false]
      rw [if_pos hne0, if_neg (not_le.mpr hr)]
      dsimp only [toNumber]
      rw [jsMul_fin le _]
      show (dimFallback (JV.num (JSNum.fin ((jround (le * (parseAspect aspect).getD 1) : ℤ) : ℚ))),
        dimFallback (JV.num (JSNum.fin le))) = _
      rw [dimFallback_fin le (ne_of_gt hle),
        dimFallback_fin _ (by exact_mod_cast ne_of_gt hro)]
    · simp [pickDims]
  · intro hwn hhn
    have hLb := parseDim_getD_bounds le0
    constructor
    · intro hr hro
      simp only [resolveDimsV2]
      rw [hwn, hhn]
      rw [if_neg (by decide), if_neg (by decide), if_neg (by decide), if_pos hr]
      rw [parseDim_fixed _ hLb.1 hLb.2.1 hLb.2.2, parseDim_int _ hro]
      dsimp only
      have h8 := alignDim_ge (clampDim (jround ((((parseDim le0).getD 1024 : ℤ) : ℚ) /
        (parseAspect aspect).getD 1)))
      rw [orDefault1024_some _ (by omega), orDefault1024_some _ (by omega)]
    · intro hr hro
      simp only [resolveDimsV2]
      rw [hwn, hhn]
      rw [if_neg (by decide), if_neg (by decide), if_neg (by decide),
        if_neg (not_le.mpr hr)]
      rw [parseDim_fixed _ hLb.1 hLb.2.1 hLb.2.2, parseDim_int _ hro]
      dsimp only
      have h8 := alignDim_ge (clampDim (jround ((((parseDim le0).getD 1024 : ℤ) : ℚ) *
        (parseAspect aspect).getD 1)))
      rw [orDefault1024_some _ (by omega), orDefault1024_some _ (by omega)]
  · with_unfolding_all decide
  · with_unfolding_all decide
  · with_unfolding_all decide
  · with_unfolding_all decide

/-- C7 (counterexample): the long-edge derivation is not taken in variant 2
for every input where neither dimension is a positive integer.  The
positive non-integer width 2.5 is accepted by `parseDim` (rounding to 3 and
clamping to 256), so the one-sided branch runs and 16:9 with long edge 1920
resolves to (256, 256) instead of the claimed derivation (1920, 1080);
variant 1 does derive (1920, 1080) from the long edge on the same input. -/
theorem claim7_counterexample :
    resolveDimsV2 (JV.num (JSNum.fin (5 / 2))) JV.undef (JV.str ("16:9"))
      (JV.num (JSNum.fin 1920)) = (256, 256) ∧
    pickDims (JV.num (JSNum.fin (5 / 2))) JV.undef (JV.str ("16:9"))
      (JV.num (JSNum.fin 1920)) = (JSNum.fin 1920, JSNum.fin 1080) := by
  constructor
  · with_unfolding_all decide
  · with_unfolding_all decide

/-- Witness for C7: deriving 1920 by 1080 from the ratio 16:9 and long edge
1920 in variant 1, through the general derivation clause. -/
theorem claim7_witness :
    pickDims JV.undef JV.undef (JV.str ("16:9")) (JV.num (JSNum.fin 1920)) =
      (JSNum.fin 1920, JSNum.fin 1080) := by
  have h := ((claim7_longEdge_derivation JV.undef JV.undef (JV.str ("16:9"))
      (JV.num (JSNum.fin 1920)) 1920).1 (by decide) (by decide)
      (by with_unfolding_all decide)).1 (by with_unfolding_all decide)
      (by with_unfolding_all decide)
  exact h.trans (by with_unfolding_all decide)

/-- C3 (counterexample): in the second variant the auth check runs before
the method/path gate, so a non-POST request without valid credentials is
answered 401, not the claimed 405 with an Allow header. -/
theorem claim3_gate_counterexample :
    fetchV2 ⟨"GET", "/", none, none, none⟩ "secret" = Outcome.unauthorized ∧
    Outcome.status Outcome.unauthorized = 401 ∧
    Outcome.status Outcome.methodNotAllowed = 405 := by
  exact ⟨by with_unfolding_all decide, rfl, rfl⟩

/-- C3 (amended): OPTIONS is answered 204 in both variants regardless of
anything else; variant 1 answers every other non-POST or non-root request
405 with the Allow header listing POST, OPTIONS; in variant 2 the auth
check comes first, so unauthenticated requests get 401 and only
authenticated requests with a disallowed method or path get that 405. -/
theorem claim3_gate (req : Req) (key : String) :
    (req.method = "OPTIONS" →
      fetchV1 req key = Outcome.preflight ∧ fetchV2 req key = Outcome.preflight ∧
      Outcome.status Outcome.preflight = 204) ∧
    (req.method ≠ "OPTIONS" → (req.method ≠ "POST" ∨ req.path ≠ "/") →
      fetchV1 req key = Outcome.methodNotAllowed ∧
      Outcome.status (fetchV1 req key) = 405 ∧
      Outcome.allowHeader (fetchV1 req key) = some ("POST, OPTIONS")) ∧
    (req.method ≠ "OPTIONS" → req.auth ≠ some ("Bearer " ++ key) →
      fetchV2 req key = Outcome.unauthorized) ∧
    (req.method ≠ "OPTIONS" → req.auth = some ("Bearer " ++ key) →
      (req.method ≠ "POST" ∨ req.path ≠ "/") →
      fetchV2 req key = Outcome.methodNotAllowed ∧
      Outcome.allowHeader (fetchV2 req key) = some ("POST, OPTIONS")) := by
  refine ⟨?_, ?_, ?_, ?_⟩
  · intro h
    refine ⟨?_, ?_, rfl⟩
    · simp only [fetchV1]
      rw [if_pos h]
    · simp only [fetchV2]
      rw [if_pos h]
  · intro hO hmp
    have h1 : fetchV1 req key = Outcome.methodNotAllowed := by
      simp only [fetchV1]
      rw [if_neg hO, if_pos hmp.symm]
    exact ⟨h1, by rw [h1]; rfl, by rw [h1]; rfl⟩
  · intro hO ha
    simp only [fetchV2]
    rw [if_neg hO, if_pos ha]
  · intro hO ha hmp
    have h2 : fetchV2 req key = Outcome.methodNotAllowed := by
      simp only [fetchV2]
      rw [if_neg hO, if_neg (fun hx => hx ha), if_pos hmp]
    exact ⟨h2, by rw [h2]; rfl⟩

/-- Witness for the amended C3: a DELETE to a non-root path is 405 in
variant 1, and OPTIONS is 204 in variant 2. -/
theorem claim3_gate_witness :
    fetchV1 ⟨"DELETE", "/x", none, none, none⟩ "k" = Outcome.methodNotAllowed ∧
    fetchV2 ⟨"OPTIONS", "/", none, none, none⟩ "k" = Outcome.preflight := by
  constructor
  · exact ((claim3_gate ⟨"DELETE", "/x", none, none, none⟩ "k").2.1
      (by decide) (Or.inl (by decide))).1
  · exact ((claim3_gate ⟨"OPTIONS", "/", none, none, none⟩ "k").1 rfl).2.1

/-- C4 (counterexample): the second variant has no 413 length check — an
801-character prompt sails through to the backend — and a truthy non-string
prompt is not a 400 either: calling trim on it throws and is caught as the
generic 500. -/
theorem claim4_prompt_counterexample :
    fetchV2 ⟨"POST", "/", some ("Bearer k"), some ("application/json"),
        some ⟨JV.str (String.mk (List.replicate 801 'a')), JV.undef, JV.undef, JV.undef,
          JV.undef, JV.undef⟩⟩ "k"
      = Outcome.generate DEFAULT_MODEL (String.mk (List.replicate 801 'a'))
          (JSNum.fin 1024) (JSNum.fin 1024) ∧
    800 < (String.mk (List.replicate 801 'a')).length ∧
    fetchV2 ⟨"POST", "/", some ("Bearer k"), some ("application/json"),
        some ⟨JV.num (JSNum.fin 5), JV.undef, JV.undef, JV.undef, JV.undef, JV.undef⟩⟩ "k"
      = Outcome.serverError ∧
    Outcome.status Outcome.serverError = 500 := by
  refine ⟨?_, ?_, ?_, rfl⟩
  · with_unfolding_all decide
  · with_unfolding_all decide
  · with_unfolding_all decide

/-- C4 (amended): on an authenticated POST to the root with a JSON content
type, variant 1 validates the prompt exactly as claimed — non-strings and
strings that trim to empty are 400, trimmed prompts over 800 characters are
413, and otherwise the trimmed prompt is used.  Variant 2 has no length
limit, answers 400 exactly when the defaulted prompt trims to empty, and
turns a truthy non-string prompt into the generic 500 because calling trim
on it throws inside the try block. -/
theorem claim4_prompt (req : Req) (key : String) (b : Body)
    (hm : req.method = "POST") (hp : req.path = "/")
    (ha : req.auth = some ("Bearer " ++ key)) (hk : key ≠ "")
    (hct : hasSub (lowerStr (req.contentType.getD (""))).data
      (("application/json").data) = true)
    (hb : req.body = some b) :
    (∀ s : String, b.prompt = JV.str s →
      (trimChars s.data = [] →
        fetchV1 req key = Outcome.badPrompt ∧ fetchV2 req key = Outcome.badPrompt) ∧
      (800 < (String.mk (trimChars s.data)).length →
        fetchV1 req key = Outcome.promptTooLong) ∧
      (trimChars s.data ≠ [] → (String.mk (trimChars s.data)).length ≤ 800 →
        fetchV1 req key =
          Outcome.generate (selectedModelV1 b.model) (String.mk (trimChars s.data))
            (pickDims b.width b.height b.aspect b.longEdge).1
            (pickDims b.width b.height b.aspect b.longEdge).2) ∧
      (trimChars s.data ≠ [] →
        fetchV2 req key =
          Outcome.generate (selectedModelV2 b.model) (String.mk (trimChars s.data))
            (JSNum.fin ((resolveDimsV2 b.width b.height b.aspect b.longEdge).1 : ℚ))
            (JSNum.fin ((resolveDimsV2 b.width b.height b.aspect b.longEdge).2 : ℚ)))) ∧
    ((∀ s : String, b.prompt = JV.str s → False) →
      fetchV1 req key = Outcome.badPrompt) ∧
    (truthy b.prompt = false → fetchV2 req key = Outcome.badPrompt) ∧
    (truthy b.prompt = true → (∀ s : String, b.prompt = JV.str s → False) →
      fetchV2 req key = Outcome.serverError ∧ Outcome.status Outcome.serverError = 500) := by
  obtain ⟨m, pa, au, ct, bo⟩ := req
  dsimp only at hm hp ha hb hct
  subst hm
  subst hp
  subst ha
  subst hb
  refine ⟨?_, ?_, ?_, ?_⟩
  · intro s hps
    have hred1 := fetchV1_prompt_str key ct b s hk hct hps
    have hred2 := fetchV2_validated key ct b hct
    refine ⟨?_, ?_, ?_, ?_⟩
    · intro hempty
      constructor
      · rw [hred1, hempty]
        rw [if_pos (by decide)]
      · have hj : jsOr b.prompt (JV.str ("")) = JV.str s := by
          rw [hps]
          by_cases hs : s = ""
          · subst hs
            simp [jsOr, truthy]
          · simp [jsOr, truthy, hs]
        rw [hred2, hj]
        dsimp only
        rw [hempty]
        rw [if_pos (by decide)]
    · intro hlen
      rw [hred1]
      rw [if_neg (fun hx => by
          rw [hx] at hlen
          simp [String.length_empty] at hlen)]
      rw [if_pos hlen]
    · intro hne hlen
      rw [hred1]
      rw [if_neg (show ¬ (String.mk (trimChars s.data) = "") from
          fun hx => hne (congrArg String.data hx)),
        if_neg (not_lt.mpr hlen)]
    · intro hne
      have hs : s ≠ "" := by
        intro hx
        subst hx
        exact hne rfl
      have hj : jsOr b.prompt (JV.str ("")) = JV.str s := by
        rw [hps]
        simp [jsOr, truthy, hs]
      rw [hred2, hj]
      dsimp only
      rw [if_neg (show ¬ (String.mk (trimChars s.data) = "") from
          fun hx => hne (congrArg String.data hx))]
  · intro hno
    have hna : ¬ (key = "" ∨ safeEqual key key = false) := by
      rintro (hx | hx)
      · exact hk hx
      · simp [safeEqual] at hx
    simp only [fetchV1]
    rw [if_neg (by decide), if_neg (by decide)]
    rw [show (some ("Bearer " ++ key)).getD ("") = "Bearer " ++ key from rfl]
    rw [parseBearer_bearer key]
    rw [show (some key).getD ("") = key from rfl]
    rw [if_neg hna]
    rw [if_neg (fun hx => by rw [hct] at hx; exact Bool.noConfusion hx)]
  · intro ht
    have hj : jsOr b.prompt (JV.str ("")) = JV.str ("") := by
      unfold jsOr
      rw [ht]
      simp
    rw [fetchV2_validated key ct b hct, hj]
    dsimp only
    rw [if_pos (by decide)]
  · intro ht hno
    refine ⟨?_, rfl⟩
    have hj : jsOr b.prompt (JV.str ("")) = b.prompt := by
      unfold jsOr
      rw [ht]
      simp
    rw [fetchV2_validated key ct b hct, hj]
    cases hpv : b.prompt with
    | str s => exact absurd hpv (hno s)
    | undef => rfl
    | null => rfl
    | bool bb => rfl
    | num n => rfl
    | other => rfl

/-- Witness for the amended C4: an authenticated POST with the prompt
padded in whitespace generates with the trimmed prompt in both variants. -/
theorem claim4_prompt_witness :
    fetchV1 ⟨"POST", "/", some ("Bearer " ++ "k"), some ("application/json"),
        some ⟨JV.str (" hi "), JV.undef, JV.undef, JV.undef, JV.undef, JV.undef⟩⟩ "k"
      = Outcome.generate DEFAULT_MODEL ("hi") (JSNum.fin 1024) (JSNum.fin 1024) ∧
    fetchV2 ⟨"POST", "/", some ("Bearer " ++ "k"), some ("application/json"),
        some ⟨JV.str (" hi "), JV.undef, JV.undef, JV.undef, JV.undef, JV.undef⟩⟩ "k"
      = Outcome.generate DEFAULT_MODEL ("hi") (JSNum.fin 1024) (JSNum.fin 1024) := by
  have h := claim4_prompt
    ⟨"POST", "/", some ("Bearer " ++ "k"), some ("application/json"),
      some ⟨JV.str (" hi "), JV.undef, JV.undef, JV.undef, JV.undef, JV.undef⟩⟩ "k"
    ⟨JV.str (" hi "), JV.undef, JV.undef, JV.undef, JV.undef, JV.undef⟩
    rfl rfl rfl (show ("k" : String) ≠ "" by decide)
    (show hasSub (lowerStr ((some ("application/json") : Option String).getD (""))).data
      (("application/json").data) = true by decide) rfl
  constructor
  · exact ((h.1 (" hi ") rfl).2.2.1 (by decide) (by decide)).trans
      (by with_unfolding_all decide)
  · exact ((h.1 (" hi ") rfl).2.2.2 (by decide)).trans
      (by with_unfolding_all decide)

end Worker
